import Mathlib

/-!
Verification development for the test-newsapi-mcp MCP server
(src/server.py). The server exposes one tool, search_everything, that
forwards parameters to the NewsAPI /everything endpoint, wrapped by a
pay-per-call HTTP 402 middleware from an external package, plus a
health route and module-level startup validation.

The shallow embedding below translates the first-party code of
src/server.py. The D402 payment middleware and the MCP framework are
external dependencies whose code is not in this repository; where a
claim depends on their behaviour, the corresponding definition is
modelled from the specification and carries a doc comment saying so.
-/

set_option autoImplicit false

namespace NewsApiMcp

/-- JSON values, the shape of bodies returned by the upstream API and of
the dictionaries returned by search_everything. -/
inductive Json where
  | null
  | bool (b : Bool)
  | num (n : Int)
  | str (s : String)
  | arr (elems : List Json)
  | obj (fields : List (String × Json))

/-- A value placed in the params mapping handed to requests.get: Python
strings, ints, or None. -/
inductive ParamValue where
  | str (s : String)
  | int (n : Int)
  | null
deriving DecidableEq, Repr

/-- EIP712Domain from traia_iatp.d402.types, instantiated with the literal
values of the decorator in src/server.py lines 105-108. -/
structure EIP712Domain where
  name : String
  version : String
deriving DecidableEq, Repr

/-- TokenAsset from traia_iatp.d402.types (src/server.py lines 101-109). -/
structure TokenAsset where
  address : String
  decimals : Nat
  network : String
  eip712 : EIP712Domain
deriving DecidableEq, Repr

/-- TokenAmount from traia_iatp.d402.types (src/server.py lines 99-110). -/
structure TokenAmount where
  amount : String
  asset : TokenAsset
deriving DecidableEq, Repr

/-- The price declared for the search_everything tool by the
require_payment_for_tool decorator, src/server.py lines 98-110. -/
def search_everything_price : TokenAmount :=
  { amount := "2000"
    asset :=
      { address := "0x1c7D4B196Cb0C7B01d743Fbc6116a902379C7238"
        decimals := 6
        network := "sepolia"
        eip712 := { name := "IATPWallet", version := "1" } } }

/-- The named parameters of search_everything with their declared default
values, src/server.py lines 114-127. Parameters whose Python default is
None are Option valued. -/
structure SearchParams where
  q : Option String := none
  qInTitle : Option String := none
  sources : Option String := none
  domains : Option String := none
  excludeDomains : Option String := none
  from_ : Option String := none
  «to» : Option String := none
  language : String := "en"
  sortBy : String := "publishedAt"
  searchIn : Option String := none
  pageSize : Int := 20
  page : Int := 1
deriving DecidableEq, Repr

/-- Python truthiness of an optional string: None and the empty string are
falsy, every other string is truthy. -/
def pyTruthy : Option String → Bool
  | none => false
  | some s => s ≠ ""

/-- An optional string as a param value: Python None becomes null. -/
def optStr : Option String → ParamValue
  | some s => ParamValue.str s
  | none => ParamValue.null

/-- The params dictionary built in search_everything, src/server.py lines
172-185. The from_ argument is sent under the key "from"; every other
argument is sent under its own name. -/
def buildParams (p : SearchParams) : List (String × ParamValue) :=
  [("q", optStr p.q),
   ("qInTitle", optStr p.qInTitle),
   ("sources", optStr p.sources),
   ("domains", optStr p.domains),
   ("excludeDomains", optStr p.excludeDomains),
   ("from", optStr p.from_),
   ("to", optStr p.«to»),
   ("language", ParamValue.str p.language),
   ("sortBy", ParamValue.str p.sortBy),
   ("searchIn", optStr p.searchIn),
   ("pageSize", ParamValue.int p.pageSize),
   ("page", ParamValue.int p.page)]

/-- One outbound HTTP request as handed to requests.get, src/server.py
lines 190-195. -/
structure OutboundRequest where
  method : String
  url : String
  params : List (String × ParamValue)
  headers : List (String × String)
  timeout : Nat
deriving DecidableEq, Repr

/-- The request built by search_everything before the outbound call:
GET on the /everything URL, the params mapping, a bearer Authorization
header exactly when the api key is truthy, timeout 30 (src/server.py
lines 171-195). -/
def buildRequest (api_key : Option String) (p : SearchParams) : OutboundRequest :=
  { method := "GET"
    url := "https://newsapi.org/v2/everything"
    params := buildParams p
    headers :=
      if pyTruthy api_key then
        [("Authorization", "Bearer " ++ api_key.getD "")]
      else []
    timeout := 30 }

/-- The body of an HTTP response: either a JSON document or bytes that
fail JSON decoding, carrying the decode error message. -/
inductive Body where
  | json (j : Json)
  | invalid (decodeMsg : String)

/-- Outcome of one call to requests.get: a transport level exception
(connection failure or timeout), carrying its message, or a response
with a status code, the message an HTTPError for that status would
carry, and a body. -/
inductive HttpOutcome where
  | transportError (msg : String)
  | response (status : Nat) (statusMsg : String) (body : Body)

/-- The dictionary returned by the except branch of search_everything,
src/server.py line 202. -/
def errorDict (msg : String) : Json :=
  Json.obj [("error", Json.str msg), ("endpoint", Json.str "/everything")]

/-- The try/except body of search_everything applied to the outcome of the
outbound call: raise_for_status raises on any status in [400, 600), and
response.json() raises on an undecodable body; every exception is caught
and turned into errorDict (src/server.py lines 196-202). -/
def dispatchResult (outcome : HttpOutcome) : Json :=
  match outcome with
  | HttpOutcome.transportError msg => errorDict msg
  | HttpOutcome.response status statusMsg body =>
    if 400 ≤ status ∧ status < 600 then errorDict statusMsg
    else
      match body with
      | Body.json j => j
      | Body.invalid decodeMsg => errorDict decodeMsg

/-- The search_everything tool, src/server.py lines 114-202, over an
explicit HTTP collaborator. It returns the resulting dictionary together
with the list of outbound requests issued during the invocation; the
api key argument stands for the value of get_active_api_key(context). -/
def search_everything (http : OutboundRequest → HttpOutcome)
    (api_key : Option String) (p : SearchParams) :
    Json × List OutboundRequest :=
  let req := buildRequest api_key p
  (dispatchResult (http req), [req])

/-- Two invocations of search_everything with identical arguments: the
outbound requests of the first followed by those of the second. The code
keeps no state between calls, so the invocations are independent. -/
def twoIdenticalCalls (http : OutboundRequest → HttpOutcome)
    (api_key : Option String) (p : SearchParams) : List OutboundRequest :=
  (search_everything http api_key p).2 ++ (search_everything http api_key p).2

/-- An outcome on which the try block of search_everything raises before
reaching response.json(): a transport failure or timeout, or a response
whose status makes raise_for_status raise. -/
def isFailureOutcome : HttpOutcome → Prop
  | HttpOutcome.transportError _ => True
  | HttpOutcome.response status _ _ => 400 ≤ status ∧ status < 600

/-- The message str(e) of the exception, if any, that the try block of
search_everything raises on the given outcome: transport failures,
statuses in [400, 600), and JSON decode failures on success statuses. -/
def excMsg : HttpOutcome → Option String
  | HttpOutcome.transportError msg => some msg
  | HttpOutcome.response status statusMsg body =>
    if 400 ≤ status ∧ status < 600 then some statusMsg
    else
      match body with
      | Body.json _ => none
      | Body.invalid decodeMsg => some decodeMsg

/-- The credential carried by an inbound call: nothing, an API key from
the Authorization header, or a d402 payment proof. -/
inductive Credential where
  | noCred
  | apiKey (k : String)
  | paymentProof (proof : String)
deriving DecidableEq, Repr

/-- Reason a call was admitted by the payment gate. -/
inductive AdmitReason where
  | byApiKey
  | byVerifiedPayment
deriving DecidableEq, Repr

/-- Decision of the payment gate for one call. -/
inductive PaymentDecision where
  | admitted (reason : AdmitReason)
  | rejected (price : TokenAmount)
deriving DecidableEq, Repr

/-- Modelled from the spec: the payment gate (require_payment_for_tool and
D402PaymentMiddleware) lives in the external traia_iatp package, not in
src/. Per spec section 4.2: a call carrying the recognized internal key is
admitted with reason api-key; a call carrying a payment proof is admitted
exactly when the external verification collaborator accepts it for the
declared price; any other call is rejected with the declared price so the
caller can construct a payment. The declared price handed to the gate is
taken from the decorator in src/server.py. -/
def evaluateGate (serverKey : Option String)
    (verify : String → TokenAmount → Bool) (price : TokenAmount) :
    Credential → PaymentDecision
  | Credential.noCred => PaymentDecision.rejected price
  | Credential.apiKey k =>
    if serverKey = some k then PaymentDecision.admitted AdmitReason.byApiKey
    else PaymentDecision.rejected price
  | Credential.paymentProof proof =>
    if verify proof price then PaymentDecision.admitted AdmitReason.byVerifiedPayment
    else PaymentDecision.rejected price

/-- A call carrying no credential and no valid payment proof: either
nothing at all, or a payment proof the verification collaborator
refuses for the given price. -/
def noValidCredential (verify : String → TokenAmount → Bool)
    (price : TokenAmount) : Credential → Prop
  | Credential.noCred => True
  | Credential.apiKey _ => False
  | Credential.paymentProof proof => verify proof price = false

/-- Response surfaced to the caller by the gateway: the tool result, or a
payment-required rejection carrying the price payload. -/
inductive GatewayResponse where
  | ok (body : Json)
  | paymentRequired (price : TokenAmount)

/-- Modelled from the spec: the composition of the payment gate in front
of the search_everything handler (spec sections 2 and 4.2-4.3). An
admitted call dispatches search_everything once with the active upstream
api key; a rejected call is answered with payment required and the
declared price, and issues no outbound request. -/
def gatewayCall (serverKey : Option String)
    (verify : String → TokenAmount → Bool) (upstreamKey : Option String)
    (http : OutboundRequest → HttpOutcome) (cred : Credential)
    (p : SearchParams) : GatewayResponse × List OutboundRequest :=
  match evaluateGate serverKey verify search_everything_price cred with
  | PaymentDecision.admitted _ =>
    let r := search_everything http upstreamKey p
    (GatewayResponse.ok r.1, r.2)
  | PaymentDecision.rejected price => (GatewayResponse.paymentRequired price, [])

/-- The body returned by the health_check route, src/server.py lines
288-296, with the timestamp value passed explicitly. -/
def health_check (timestamp : String) : Json :=
  Json.obj
    [("status", Json.str "healthy"),
     ("service", Json.str "test-newsapi-mcp-mcp-server"),
     ("timestamp", Json.str timestamp)]

/-- An inbound call to the gateway: the liveness route (with whatever
credential the request happens to carry) or the search tool. -/
inductive InboundCall where
  | health (cred : Credential) (timestamp : String)
  | searchTool (cred : Credential) (p : SearchParams)

/-- Modelled from the spec: routing in the gateway shell. The health
route bypasses the payment gate entirely (spec sections 4.4 and 8, and
the comment at src/server.py line 286); the tool route goes through the
gate and then the dispatcher. -/
def gatewayHandle (serverKey : Option String)
    (verify : String → TokenAmount → Bool) (upstreamKey : Option String)
    (http : OutboundRequest → HttpOutcome) :
    InboundCall → GatewayResponse × List OutboundRequest
  | InboundCall.health _ timestamp => (GatewayResponse.ok (health_check timestamp), [])
  | InboundCall.searchTool cred p => gatewayCall serverKey verify upstreamKey http cred p

/-- Module level state established by src/server.py lines 54-74 when
importing succeeds: the configuration values and the fact that the FastMCP
server object was created (line 72 runs only after the SERVER_ADDRESS
check has passed). -/
structure ModuleState where
  stage : String
  port : Int
  serverAddress : String
  apiKey : Option String
  serverCreated : Bool
deriving DecidableEq, Repr

/-- Module initialization, src/server.py lines 54-74, over an explicit
environment. STAGE and PORT are read with defaults; int() on a
non-numeric PORT raises; a missing or empty SERVER_ADDRESS raises
ValueError before the FastMCP server is created. -/
def moduleInit (env : String → Option String) : Except String ModuleState :=
  let stage := ((env "STAGE").getD "MAINNET").toUpper
  match ((env "PORT").getD "8000").toInt? with
  | none => Except.error "invalid literal for int() with base 10"
  | some port =>
    let serverAddress := env "SERVER_ADDRESS"
    if pyTruthy serverAddress then
      Except.ok
        { stage := stage
          port := port
          serverAddress := serverAddress.getD ""
          apiKey := env "TEST_NEWSAPI_MCP_API_KEY"
          serverCreated := true }
    else Except.error "SERVER_ADDRESS required for payment protocol"

/-- Whether module initialization reached the point where the server
object exists. -/
def serverStarted : Except String ModuleState → Bool
  | Except.ok st => st.serverCreated
  | Except.error _ => false

/-- Python or on two optional strings: the first operand if it is truthy,
otherwise the second. -/
def pyOr (a b : Option String) : Option String :=
  if pyTruthy a then a else b

/-- Python str.lower() restricted to its ASCII behaviour, written as a
structural map over the characters so that it evaluates on concrete
strings. -/
def pyLower (s : String) : String :=
  String.mk (s.data.map Char.toLower)

/-- The application assembled by create_app_with_middleware when it does
not raise: the D402 configuration it read, the middleware it added and
the health route, src/server.py lines 224-299. -/
structure AppConfig where
  facilitatorUrl : Option String
  operatorKey : Option String
  network : String
  testingMode : Bool
  corsAllowAllOrigins : Bool
  d402ServerAddress : String
  d402InternalApiKey : Option String
  healthRouteAdded : Bool
deriving DecidableEq, Repr

/-- create_app_with_middleware, src/server.py lines 211-299, over an
explicit environment. The facilitator URL is FACILITATOR_URL or else
D402_FACILITATOR_URL by Python truthiness; testing mode holds exactly
when D402_TESTING_MODE (default "false") lowercased is "true"; with no
truthy facilitator URL and testing mode off it raises ValueError,
otherwise it returns the app with CORS, the payment middleware and the
health route attached. -/
def create_app_with_middleware (env : String → Option String)
    (serverAddress : String) (internalApiKey : Option String) :
    Except String AppConfig :=
  let facilitator_url := pyOr (env "FACILITATOR_URL") (env "D402_FACILITATOR_URL")
  let operator_key := env "MCP_OPERATOR_PRIVATE_KEY"
  let network := (env "NETWORK").getD "sepolia"
  let testing_mode := decide (pyLower ((env "D402_TESTING_MODE").getD "false") = "true")
  if !pyTruthy facilitator_url && !testing_mode then
    Except.error "Set FACILITATOR_URL or enable D402_TESTING_MODE=true"
  else
    Except.ok
      { facilitatorUrl := facilitator_url
        operatorKey := operator_key
        network := network
        testingMode := testing_mode
        corsAllowAllOrigins := true
        d402ServerAddress := serverAddress
        d402InternalApiKey := internalApiKey
        healthRouteAdded := true }

/-- Whether create_app_with_middleware returned an app rather than
raising. -/
def appStarts : Except String AppConfig → Bool
  | Except.ok _ => true
  | Except.error _ => false

/-- The parameter record with every argument left at its declared
default: q, sources and domains are all omitted. -/
def defaultParams : SearchParams := {}

/-- The parameter record of the spec scenario: q is "ai" and every other
argument is left at its default. -/
def paramsQai : SearchParams := { q := some "ai" }

/-- A verification collaborator that accepts no payment proof. -/
def neverVerify : String → TokenAmount → Bool := fun _ _ => false

/-- An HTTP collaborator whose every call fails in transport. -/
def deadHttp : OutboundRequest → HttpOutcome :=
  fun _ => HttpOutcome.transportError "connection refused"

/-- An HTTP collaborator that always answers 200 with a JSON body. -/
def okHttp : OutboundRequest → HttpOutcome :=
  fun _ => HttpOutcome.response 200 "OK" (Body.json (Json.str "payload"))

/-- An HTTP collaborator that answers 200 with a body that is not valid
JSON, so response.json() raises. -/
def badJsonHttp : OutboundRequest → HttpOutcome :=
  fun _ => HttpOutcome.response 200 "OK" (Body.invalid "Expecting value: line 1 column 1 (char 0)")

/-- An environment with no variable set. -/
def envNone : String → Option String := fun _ => none

/-- An environment where D402_TESTING_MODE is the uppercase string TRUE
and nothing else is set. -/
def envC8 : String → Option String :=
  fun name => if name = "D402_TESTING_MODE" then some "TRUE" else none

/-- C1 counterexample: the claim says that a call to search_everything
omitting every required parameter (none of q, sources, domains given)
is rejected before any outbound HTTP call, so no request is made. In the
code there is no such validation: with all three omitted (the default
parameters) the invocation still issues one outbound request. -/
theorem C1_counterexample :
    defaultParams.q = none ∧ defaultParams.sources = none ∧
    defaultParams.domains = none ∧
    (search_everything deadHttp none defaultParams).2.length = 1 :=
  ⟨rfl, rfl, rfl, rfl⟩

/-- C1 amended: search_everything performs no required-parameter
validation; a call omitting all of q, sources and domains still issues
exactly one outbound request, in which those three parameters are sent
as null, and any rejection is left to the upstream API. -/
theorem C1_amended_no_validation (http : OutboundRequest → HttpOutcome)
    (api_key : Option String) (p : SearchParams)
    (hq : p.q = none) (hs : p.sources = none) (hd : p.domains = none) :
    (search_everything http api_key p).2 = [buildRequest api_key p] ∧
    ("q", ParamValue.null) ∈ (buildRequest api_key p).params ∧
    ("sources", ParamValue.null) ∈ (buildRequest api_key p).params ∧
    ("domains", ParamValue.null) ∈ (buildRequest api_key p).params := by
  refine ⟨rfl, ?_, ?_, ?_⟩ <;> simp [buildRequest, buildParams, hq, hs, hd, optStr]

/-- C1 amended witness: the amended statement evaluated on the default
parameters and a concrete HTTP collaborator. -/
theorem C1_amended_witness :
    defaultParams.q = none ∧ defaultParams.sources = none ∧
    defaultParams.domains = none ∧
    ((search_everything deadHttp none defaultParams).2 = [buildRequest none defaultParams] ∧
     ("q", ParamValue.null) ∈ (buildRequest none defaultParams).params ∧
     ("sources", ParamValue.null) ∈ (buildRequest none defaultParams).params ∧
     ("domains", ParamValue.null) ∈ (buildRequest none defaultParams).params) :=
  ⟨rfl, rfl, rfl, C1_amended_no_validation deadHttp none defaultParams rfl rfl rfl⟩

/-- C2: whenever the outbound call fails in transport, times out, or
returns a status on which raise_for_status raises, search_everything
returns the error dictionary carrying a message; the embedding is a
total function, so no exception escapes its boundary and every per-call
error is data in the return value. -/
theorem C2_errors_returned_as_data (http : OutboundRequest → HttpOutcome)
    (api_key : Option String) (p : SearchParams)
    (h : isFailureOutcome (http (buildRequest api_key p))) :
    ∃ msg, (search_everything http api_key p).1 = errorDict msg := by
  have hres : (search_everything http api_key p).1
      = dispatchResult (http (buildRequest api_key p)) := rfl
  rw [hres]
  rcases hh : http (buildRequest api_key p) with m | ⟨status, statusMsg, body⟩ <;>
    rw [hh] at h
  · exact ⟨m, rfl⟩
  · simp only [isFailureOutcome] at h
    exact ⟨statusMsg, by simp only [dispatchResult, if_pos h]⟩

/-- C2 witness: the theorem evaluated on a transport failure. -/
theorem C2_witness :
    isFailureOutcome (deadHttp (buildRequest none defaultParams)) ∧
    ∃ msg, (search_everything deadHttp none defaultParams).1 = errorDict msg :=
  ⟨trivial, C2_errors_returned_as_data deadHttp none defaultParams trivial⟩

/-- C3: a call to the search tool with q set to "ai" and a credential
matching the internal key is admitted and produces exactly one outbound
GET request whose params mapping carries q equal to "ai" together with
the defaults language "en", pageSize 20 and page 1; when the upstream
answers a success status with a JSON body, that body is returned to the
caller unchanged. -/
theorem C3_search_with_key (k : String) (verify : String → TokenAmount → Bool)
    (upstreamKey : Option String) (http : OutboundRequest → HttpOutcome)
    (statusMsg : String) (j : Json)
    (hup : http (buildRequest upstreamKey paramsQai)
      = HttpOutcome.response 200 statusMsg (Body.json j)) :
    gatewayCall (some k) verify upstreamKey http (Credential.apiKey k) paramsQai
      = (GatewayResponse.ok j, [buildRequest upstreamKey paramsQai]) ∧
    (buildRequest upstreamKey paramsQai).method = "GET" ∧
    ("q", ParamValue.str "ai") ∈ (buildRequest upstreamKey paramsQai).params ∧
    ("language", ParamValue.str "en") ∈ (buildRequest upstreamKey paramsQai).params ∧
    ("pageSize", ParamValue.int 20) ∈ (buildRequest upstreamKey paramsQai).params ∧
    ("page", ParamValue.int 1) ∈ (buildRequest upstreamKey paramsQai).params := by
  refine ⟨?_, rfl, ?_, ?_, ?_, ?_⟩
  · simp [gatewayCall, evaluateGate, search_everything, hup, dispatchResult]
  all_goals simp [buildRequest, buildParams, paramsQai, optStr]

/-- C3 witness: the scenario evaluated on a concrete key and a concrete
200 response. -/
theorem C3_witness :
    okHttp (buildRequest none paramsQai)
      = HttpOutcome.response 200 "OK" (Body.json (Json.str "payload")) ∧
    (gatewayCall (some "secret") neverVerify none okHttp (Credential.apiKey "secret") paramsQai
       = (GatewayResponse.ok (Json.str "payload"), [buildRequest none paramsQai]) ∧
     (buildRequest none paramsQai).method = "GET" ∧
     ("q", ParamValue.str "ai") ∈ (buildRequest none paramsQai).params ∧
     ("language", ParamValue.str "en") ∈ (buildRequest none paramsQai).params ∧
     ("pageSize", ParamValue.int 20) ∈ (buildRequest none paramsQai).params ∧
     ("page", ParamValue.int 1) ∈ (buildRequest none paramsQai).params) :=
  ⟨rfl, C3_search_with_key "secret" neverVerify none okHttp "OK" (Json.str "payload") rfl⟩

/-- C4: every invocation of search_everything issues exactly one outbound
request, with no retry and no cache, and two identical invocations with
identical arguments each issue their own outbound request. -/
theorem C4_one_call_per_invocation (http : OutboundRequest → HttpOutcome)
    (api_key : Option String) (p : SearchParams) :
    (search_everything http api_key p).2 = [buildRequest api_key p] ∧
    (search_everything http api_key p).2.length = 1 ∧
    twoIdenticalCalls http api_key p = [buildRequest api_key p, buildRequest api_key p] ∧
    (twoIdenticalCalls http api_key p).length = 2 :=
  ⟨rfl, rfl, rfl, rfl⟩

/-- C5: a call to the search tool carrying no credential and no valid
payment proof is rejected with payment required, and the price in the
rejection payload is exactly the declared price of the tool: amount
"2000" on the configured asset address. -/
theorem C5_reject_without_credential (serverKey : Option String)
    (verify : String → TokenAmount → Bool) (upstreamKey : Option String)
    (http : OutboundRequest → HttpOutcome) (cred : Credential) (p : SearchParams)
    (h : noValidCredential verify search_everything_price cred) :
    gatewayCall serverKey verify upstreamKey http cred p
      = (GatewayResponse.paymentRequired search_everything_price, []) ∧
    search_everything_price.amount = "2000" ∧
    search_everything_price.asset.address
      = "0x1c7D4B196Cb0C7B01d743Fbc6116a902379C7238" := by
  refine ⟨?_, rfl, rfl⟩
  cases cred with
  | noCred => rfl
  | apiKey k => exact h.elim
  | paymentProof proof =>
    simp only [noValidCredential] at h
    simp [gatewayCall, evaluateGate, h]

/-- C5 witness: the rejection evaluated on a call with no credential. -/
theorem C5_witness :
    noValidCredential neverVerify search_everything_price Credential.noCred ∧
    (gatewayCall none neverVerify none deadHttp Credential.noCred defaultParams
       = (GatewayResponse.paymentRequired search_everything_price, []) ∧
     search_everything_price.amount = "2000" ∧
     search_everything_price.asset.address
       = "0x1c7D4B196Cb0C7B01d743Fbc6116a902379C7238") :=
  ⟨trivial, C5_reject_without_credential none neverVerify none deadHttp
    Credential.noCred defaultParams trivial⟩

/-- C6: when SERVER_ADDRESS is absent from the environment, module
initialization raises an error and never reaches the point where the
server object is created. -/
theorem C6_missing_server_address (env : String → Option String)
    (h : env "SERVER_ADDRESS" = none) :
    serverStarted (moduleInit env) = false ∧
    ∃ msg, moduleInit env = Except.error msg := by
  rcases hp : ((env "PORT").getD "8000").toInt? with _ | port <;>
    simp [moduleInit, hp, h, pyTruthy, serverStarted]

/-- C6 witness: the theorem evaluated on the empty environment. -/
theorem C6_witness :
    envNone "SERVER_ADDRESS" = none ∧
    (serverStarted (moduleInit envNone) = false ∧
     ∃ msg, moduleInit envNone = Except.error msg) :=
  ⟨rfl, C6_missing_server_address envNone rfl⟩

/-- C7: a call to the liveness route, whatever credential it carries, is
answered without consulting the payment gate, issues no outbound
request, and its body is an object with exactly the fields status,
service and timestamp, with status healthy. -/
theorem C7_health_never_gated (serverKey : Option String)
    (verify : String → TokenAmount → Bool) (upstreamKey : Option String)
    (http : OutboundRequest → HttpOutcome) (cred : Credential) (timestamp : String) :
    gatewayHandle serverKey verify upstreamKey http (InboundCall.health cred timestamp)
      = (GatewayResponse.ok
          (Json.obj
            [("status", Json.str "healthy"),
             ("service", Json.str "test-newsapi-mcp-mcp-server"),
             ("timestamp", Json.str timestamp)]), []) :=
  rfl

/-- C8 counterexample: the claim says the app refuses to start whenever
D402_TESTING_MODE is not the string "true" and no facilitator variable
is set. The code lowercases the value first, so the environment with
D402_TESTING_MODE set to TRUE and no facilitator variable starts the
app. -/
theorem C8_counterexample :
    envC8 "D402_TESTING_MODE" = some "TRUE" ∧
    "TRUE" ≠ "true" ∧
    envC8 "FACILITATOR_URL" = none ∧
    envC8 "D402_FACILITATOR_URL" = none ∧
    appStarts (create_app_with_middleware envC8 "0xAddr" none) = true :=
  ⟨rfl, by decide, rfl, rfl, rfl⟩

/-- C8 amended: when the lowercased value of D402_TESTING_MODE (default
"false") is not "true" and neither FACILITATOR_URL nor
D402_FACILITATOR_URL is set, create_app_with_middleware raises an error
and the app does not start. -/
theorem C8_amended_facilitator_required (env : String → Option String)
    (serverAddress : String) (internalApiKey : Option String)
    (h1 : pyLower ((env "D402_TESTING_MODE").getD "false") ≠ "true")
    (h2 : env "FACILITATOR_URL" = none)
    (h3 : env "D402_FACILITATOR_URL" = none) :
    appStarts (create_app_with_middleware env serverAddress internalApiKey) = false ∧
    create_app_with_middleware env serverAddress internalApiKey
      = Except.error "Set FACILITATOR_URL or enable D402_TESTING_MODE=true" := by
  have hct : (decide (pyLower ((env "D402_TESTING_MODE").getD "false") = "true")) = false :=
    decide_eq_false h1
  refine ⟨?_, ?_⟩ <;>
    simp [create_app_with_middleware, pyOr, pyTruthy, h2, h3, hct, appStarts]

/-- C8 amended witness: the amended statement evaluated on the empty
environment. -/
theorem C8_amended_witness :
    pyLower ((envNone "D402_TESTING_MODE").getD "false") ≠ "true" ∧
    envNone "FACILITATOR_URL" = none ∧
    envNone "D402_FACILITATOR_URL" = none ∧
    (appStarts (create_app_with_middleware envNone "0xAddr" none) = false ∧
     create_app_with_middleware envNone "0xAddr" none
       = Except.error "Set FACILITATOR_URL or enable D402_TESTING_MODE=true") :=
  ⟨by decide, rfl, rfl,
   C8_amended_facilitator_required envNone "0xAddr" none (by decide) rfl rfl⟩

/-- C9: the params mapping built by search_everything always holds
exactly twelve keys; the from_ argument is sent under the key "from"
while every other argument keeps its own name, and on the default
arguments the omitted optional parameters are null while language,
sortBy, pageSize and page carry their defaults. -/
theorem C9_param_mapping (p : SearchParams) :
    (buildParams p).map Prod.fst
      = ["q", "qInTitle", "sources", "domains", "excludeDomains", "from",
         "to", "language", "sortBy", "searchIn", "pageSize", "page"] ∧
    (buildParams p).length = 12 ∧
    ("from", optStr p.from_) ∈ buildParams p ∧
    (∀ v, ("from_", v) ∉ buildParams p) ∧
    buildParams defaultParams
      = [("q", ParamValue.null), ("qInTitle", ParamValue.null),
         ("sources", ParamValue.null), ("domains", ParamValue.null),
         ("excludeDomains", ParamValue.null), ("from", ParamValue.null),
         ("to", ParamValue.null), ("language", ParamValue.str "en"),
         ("sortBy", ParamValue.str "publishedAt"), ("searchIn", ParamValue.null),
         ("pageSize", ParamValue.int 20), ("page", ParamValue.int 1)] := by
  refine ⟨rfl, rfl, ?_, ?_, rfl⟩
  · simp [buildParams]
  · intro v
    simp [buildParams]

/-- C10: whenever the try block of search_everything raises — transport
failure, a status in the 400 to 599 range, or a success response whose
body is not valid JSON — the returned dictionary is exactly the object
with the two keys error, carrying the exception message, and endpoint,
carrying the string /everything. -/
theorem C10_error_dict_shape (http : OutboundRequest → HttpOutcome)
    (api_key : Option String) (p : SearchParams) (msg : String)
    (h : excMsg (http (buildRequest api_key p)) = some msg) :
    (search_everything http api_key p).1
      = Json.obj [("error", Json.str msg), ("endpoint", Json.str "/everything")] := by
  have hres : (search_everything http api_key p).1
      = dispatchResult (http (buildRequest api_key p)) := rfl
  rw [hres]
  rcases hh : http (buildRequest api_key p) with m | ⟨status, statusMsg, body⟩ <;>
    rw [hh] at h
  · simp only [excMsg, Option.some.injEq] at h
    subst h; rfl
  · simp only [excMsg] at h
    by_cases hs : 400 ≤ status ∧ status < 600
    · rw [if_pos hs] at h
      simp only [Option.some.injEq] at h
      subst h
      simp only [dispatchResult, if_pos hs]
      rfl
    · rw [if_neg hs] at h
      cases body with
      | json j => exact absurd h (by simp)
      | invalid dm =>
        simp only [Option.some.injEq] at h
        subst h
        simp only [dispatchResult, if_neg hs]
        rfl

/-- C10 witness: the theorem evaluated on a 200 response whose body fails
JSON decoding. -/
theorem C10_witness :
    excMsg (badJsonHttp (buildRequest none defaultParams))
      = some "Expecting value: line 1 column 1 (char 0)" ∧
    (search_everything badJsonHttp none defaultParams).1
      = Json.obj [("error", Json.str "Expecting value: line 1 column 1 (char 0)"),
                  ("endpoint", Json.str "/everything")] :=
  ⟨rfl, C10_error_dict_shape badJsonHttp none defaultParams
    "Expecting value: line 1 column 1 (char 0)" rfl⟩

end NewsApiMcp
